import Mathlib

/-!
Verification of the Batalja 2v2 matchmaker backend
(src/controllers/matchmaker_2v2.rs together with src/models/team.rs and
src/models/competition.rs).

The Rust code is shallowly embedded: pure computations become Lean
functions, effectful procedures are parameterised by an environment record
that supplies the outcome of every external effect, Rust i32 values are
modelled as Int (parsing is bounded to the i32 range exactly as
str::parse::<i32> is), and fallible steps return Option/Except.
-/

namespace Batalja

/-! ## String helpers mirroring the Rust standard library

Rust `str::contains`, `str::split(" ")`, `str::ends_with`,
`str::parse::<i32>` and `str::parse::<bool>` are modelled over the
character lists underlying Lean strings so that all of them evaluate
inside the kernel.
-/

/-- Does the first list start with the second one?  (Helper for substring
containment and for the ends-with test.) -/
def listStartsWith : List Char → List Char → Bool
  | _, [] => true
  | [], _ :: _ => false
  | a :: as, b :: bs => a = b && listStartsWith as bs

/-- Does the first list contain the second as a contiguous sublist?
Mirrors Rust `str::contains` for a plain string pattern. -/
def listContainsSub : List Char → List Char → Bool
  | [], pat => listStartsWith [] pat
  | a :: t, pat => listStartsWith (a :: t) pat || listContainsSub t pat

/-- Rust `s.contains(pat)` for string patterns. -/
def strContains (s pat : String) : Bool :=
  listContainsSub s.data pat.data

/-- Rust `s.ends_with(suf)`. -/
def strEndsWith (s suf : String) : Bool :=
  listStartsWith s.data.reverse suf.data.reverse

/-- Accumulator-based splitter on a single separator character. -/
def splitChAux (sep : Char) : List Char → List Char → List String
  | [], acc => [String.mk acc.reverse]
  | c :: rest, acc =>
      if c = sep then String.mk acc.reverse :: splitChAux sep rest []
      else splitChAux sep rest (c :: acc)

/-- Split on every occurrence of a single character, keeping empty
fragments, as Rust `str::split` does for a one-character pattern. -/
def splitCh (sep : Char) (s : String) : List String :=
  splitChAux sep s.data []

/-- Rust `line.split(" ").collect::<Vec<_>>()`: split on every single
space, keeping empty fragments (so a double space yields an empty
token, exactly as in Rust). -/
def splitSp (s : String) : List String :=
  splitCh ' ' s

/-- Digit-run evaluator: `none` as soon as a non ASCII digit appears. -/
def parseDigitsAux : List Char → Nat → Option Nat
  | [], acc => some acc
  | c :: t, acc =>
      if c.isDigit then parseDigitsAux t (acc * 10 + (c.toNat - 48))
      else none

/-- Rust `str::parse::<i32>`: an optional leading sign, then one or more
ASCII digits, and the value must fit into a 32-bit signed integer
(overflow is a parse error, exactly as in Rust). -/
def parseI32 (s : String) : Option Int :=
  let core : Bool × List Char :=
    match s.data with
    | '-' :: t => (true, t)
    | '+' :: t => (false, t)
    | t => (false, t)
  match core.2 with
  | [] => none
  | _ =>
    match parseDigitsAux core.2 0 with
    | none => none
    | some n =>
      if core.1 then
        if n ≤ 2 ^ 31 then some (-(n : Int)) else none
      else
        if n ≤ 2 ^ 31 - 1 then some (n : Int) else none

/-- Rust `str::parse::<bool>`: exactly the strings true and false. -/
def parseBoolR (s : String) : Option Bool :=
  if s = "true" then some true
  else if s = "false" then some false
  else none

/-- Two's-complement wrap-around addition of two i32 values, as the
release-build Rust `+` on i32 performs it (a debug build panics on
overflow instead): the exact sum is reduced into the interval from
-2^31 up to but excluding 2^31. -/
def addI32 (a b : Int) : Int :=
  (a + b + 2 ^ 31) % 2 ^ 32 - 2 ^ 31

/-- Rust `Path::join` for the shapes used by the matchmaker: the base never has
a trailing slash and the pushed component is a plain relative name, so
joining is plain concatenation with a slash. -/
def joinPath (a b : String) : String :=
  a ++ "/" ++ b

/-- Rust `Path::is_absolute` on Unix: the path starts with a slash. -/
def isAbsolutePath (s : String) : Bool :=
  match s.data with
  | '/' :: _ => true
  | _ => false

/-! ## Data model

`Team` and `Competition` are translated from src/models/team.rs and
src/models/competition.rs (chrono timestamps are modelled as opaque
strings).  The remaining records live in model files that are not part
of the given sources and are reconstructed from the specification.
-/

/-- Team record from src/models/team.rs (struct Team). -/
structure Team where
  id : String
  owner : String
  partner : String
  competition_id : String
  bot1 : String
  bot2 : String
  created : String
deriving DecidableEq

/-- Placeholder team used only to totalise list indexing in the pair
generator model; the source indexes with always-in-range indices. -/
def defaultTeam : Team :=
  ⟨"", "", "", "", "", "", ""⟩

/-- Competition record from src/models/competition.rs (struct
Competition); i32 fields become Int. -/
structure Competition where
  id : String
  name : String
  start : String
  finish : String
  allowed_submissions : Bool
  round : Int
  type_ : String
  games_per_round : Int
  game_pack : String
  created : String
deriving DecidableEq

/-- Modelled from the spec: the Bot record (section 3) - identifier plus
the source_path of the archived sources; src/models/bot.rs is not among
the given sources.  The mutable error column is unused by the claims. -/
structure Bot where
  id : String
  source_path : String
deriving DecidableEq

/-- Modelled from the spec: per-player statistics record (section 3,
GamePlayerStats); src/models/game_player_stats.rs is not among the given
sources.  Field names follow the keys matched in parse_healthy_game;
numeric counters default to 0 and survived to false. -/
structure GamePlayerStats where
  turns_played : Int := 0
  survived : Bool := false
  fleet_generated : Int := 0
  fleet_lost : Int := 0
  fleet_reinforced : Int := 0
  largest_attack : Int := 0
  largest_loss : Int := 0
  largest_reinforcement : Int := 0
  planets_lost : Int := 0
  planets_conquered : Int := 0
  planets_defended : Int := 0
  planets_attacked : Int := 0
  num_fleet_lost : Int := 0
  num_fleet_reinforced : Int := 0
  num_fleet_generated : Int := 0
  total_troops_generated : Int := 0
deriving DecidableEq

/-- GamePlayerStats::default(). -/
def defaultStats : GamePlayerStats := {}

/-- Modelled from the spec: the NewGame2v2 record (section 3);
src/models/game_2v2.rs is not among the given sources.  Only the fields
the parser reads or writes are kept: the two team ids, the four slot bot
ids, the four survival flags and the winner id.  The bookkeeping fields
(game id, competition id, round, log_file_path, additional_data, elo
deltas) are not mentioned by any claim and are omitted. -/
structure NewGame2v2 where
  team1_id : String
  team2_id : String
  team1bot1_id : String
  team1bot2_id : String
  team2bot1_id : String
  team2bot2_id : String
  team1bot1_survived : Bool
  team1bot2_survived : Bool
  team2bot1_survived : Bool
  team2bot2_survived : Bool
  winner_id : String
deriving DecidableEq

/-- Modelled from the spec: NewGame2v2::new (sections 3 and 4.F) - a fresh
game starts with all slots as given, an undetermined (empty) winner and
unset survival flags. -/
def NewGame2v2.new (team1_id team2_id b11 b12 b21 b22 : String) : NewGame2v2 :=
  { team1_id := team1_id
    team2_id := team2_id
    team1bot1_id := b11
    team1bot2_id := b12
    team2bot1_id := b21
    team2bot2_id := b22
    team1bot1_survived := false
    team1bot2_survived := false
    team2bot1_survived := false
    team2bot2_survived := false
    winner_id := "" }

/-- The four slot bot ids in slot order, as built at the top of
parse_bugged_game (matchmaker_2v2.rs lines 423-428). -/
def slotIds (g : NewGame2v2) : List String :=
  [g.team1bot1_id, g.team1bot2_id, g.team2bot1_id, g.team2bot2_id]

/-! ## Bugged-game parser (matchmaker_2v2.rs lines 421-476)

The additional_data serialisation at the end of the function (lines
465-475) only writes the omitted JSON field and is not modelled.
-/

/-- Inner loop of the blame scan (lines 431-436): the first bot id, in
slot order, that occurs in the given stderr row; the inner break stops at
the first hit. -/
def firstMatchIn (row : String) : List String → Option String
  | [] => none
  | id :: rest => if strContains row id then some id else firstMatchIn row rest

/-- Outer loop of the blame scan (lines 430-437).  The break in the
source only leaves the inner loop, so every row that contains some bot id
overwrites the previously found one: the final value comes from the last
such row. -/
def findBlamed (errors : List String) (ids : List String) : Option String :=
  errors.foldl
    (fun acc row =>
      match firstMatchIn row ids with
      | some b => some b
      | none => acc)
    none

/-- The four sequential blame checks (lines 444-462): each slot whose id
equals the blamed id loses its survival flag and hands the win to the
opposing team. -/
def applyBlame (b : String) (g : NewGame2v2) : NewGame2v2 :=
  let g1 :=
    if g.team1bot1_id = b then
      { g with team1bot1_survived := false, winner_id := g.team2_id }
    else g
  let g2 :=
    if g1.team1bot2_id = b then
      { g1 with team1bot2_survived := false, winner_id := g1.team2_id }
    else g1
  let g3 :=
    if g2.team2bot1_id = b then
      { g2 with team2bot1_survived := false, winner_id := g2.team1_id }
    else g2
  let g4 :=
    if g3.team2bot2_id = b then
      { g3 with team2bot2_survived := false, winner_id := g3.team1_id }
    else g3
  g4

/-- parse_bugged_game (lines 421-476): find a blamed bot id in stderr,
set all survival flags to true, then apply the blame if one was found. -/
def parse_bugged_game (_lines errors : List String) (g : NewGame2v2) : NewGame2v2 :=
  let blamed := findBlamed errors (slotIds g)
  let gT :=
    { g with
      team1bot1_survived := true
      team1bot2_survived := true
      team2bot1_survived := true
      team2bot2_survived := true }
  match blamed with
  | some b => applyBlame b gT
  | none => gT

/-! ## Healthy-game parser (matchmaker_2v2.rs lines 478-616)

The stdout scan is a fold of a four-stage step function over the lines,
mirroring the four blocks of the loop body.  The stats HashMap is
modelled as an association list with overwriting insert.
-/

/-- Association-list lookup mirroring HashMap::get. -/
def mapGet (m : List (String × GamePlayerStats)) (k : String) : Option GamePlayerStats :=
  match m.find? (fun p => p.1 = k) with
  | some p => some p.2
  | none => none

/-- HashMap::insert with overwrite semantics. -/
def mapInsert (m : List (String × GamePlayerStats)) (k : String)
    (v : GamePlayerStats) : List (String × GamePlayerStats) :=
  (k, v) :: m.filter (fun p => ¬ p.1 = k)

/-- HashMap::get_mut followed by a field update; a no-op when the key is
absent (the source continues in that case). -/
def mapUpdate (m : List (String × GamePlayerStats)) (k : String)
    (f : GamePlayerStats → GamePlayerStats) : List (String × GamePlayerStats) :=
  m.map (fun p => if p.1 = k then (p.1, f p.2) else p)

/-- State threaded through the stdout scan (lines 479-491). -/
structure ScanState where
  r_green : Int
  r_blue : Int
  r_yellow : Int
  r_cyan : Int
  current_bot : Option String
  last_L : Option String
  stats : List (String × GamePlayerStats)
  stats_keys : List String
deriving DecidableEq

/-- Initial scan state (lines 479-491): zero scores, no current slot, no
remembered L line, empty stats, and the slot-key stack that is popped
from its end. -/
def initScan : ScanState :=
  { r_green := 0
    r_blue := 0
    r_yellow := 0
    r_cyan := 0
    current_bot := none
    last_L := none
    stats := []
    stats_keys := ["team2bot2", "team1bot2", "team2bot1", "team1bot1"] }

/-- Score tracking block (lines 500-511): any line containing the two
characters R-space is split on spaces; when exactly three tokens result
and the third names a colour, that colour gets the parsed second token
(0 when it does not parse as an i32). -/
def scanScoreStep (st : ScanState) (line : String) : ScanState :=
  if strContains line "R " then
    match splitSp line with
    | [_, v, c] =>
      if c = "green" then { st with r_green := (parseI32 v).getD 0 }
      else if c = "blue" then { st with r_blue := (parseI32 v).getD 0 }
      else if c = "yellow" then { st with r_yellow := (parseI32 v).getD 0 }
      else if c = "cyan" then { st with r_cyan := (parseI32 v).getD 0 }
      else st
    | _ => st
  else st

/-- L-line tracking block (lines 513-515). -/
def scanLStep (st : ScanState) (line : String) : ScanState :=
  if strContains line "L " then { st with last_L := some line } else st

/-- STAT block (lines 517-526): pop the next slot key from the end of the
key stack; when one is left, it becomes the current slot and receives a
fresh default stats record. -/
def scanStatStep (st : ScanState) (line : String) : ScanState :=
  if strContains line "STAT: " then
    match st.stats_keys.getLast? with
    | some key =>
      { st with
        stats_keys := st.stats_keys.dropLast
        current_bot := some key
        stats := mapInsert st.stats key defaultStats }
    | none => { st with stats_keys := st.stats_keys.dropLast }
  else st

/-- One key-value stat field update (the match at lines 540-557). -/
def statUpdate (s : GamePlayerStats) (k v : String) : GamePlayerStats :=
  if k = "turnsPlayed:" then { s with turns_played := (parseI32 v).getD 0 }
  else if k = "survive:" then { s with survived := (parseBoolR v).getD false }
  else if k = "fleetGenerated:" then { s with fleet_generated := (parseI32 v).getD 0 }
  else if k = "fleetLost:" then { s with fleet_lost := (parseI32 v).getD 0 }
  else if k = "fleetReinforced:" then { s with fleet_reinforced := (parseI32 v).getD 0 }
  else if k = "largestAttack:" then { s with largest_attack := (parseI32 v).getD 0 }
  else if k = "largestLoss:" then { s with largest_loss := (parseI32 v).getD 0 }
  else if k = "largestReinforcement:" then { s with largest_reinforcement := (parseI32 v).getD 0 }
  else if k = "planetsLost:" then { s with planets_lost := (parseI32 v).getD 0 }
  else if k = "planetsConquered:" then { s with planets_conquered := (parseI32 v).getD 0 }
  else if k = "planetsDefended:" then { s with planets_defended := (parseI32 v).getD 0 }
  else if k = "planetsAttacked:" then { s with planets_attacked := (parseI32 v).getD 0 }
  else if k = "numFleetLost:" then { s with num_fleet_lost := (parseI32 v).getD 0 }
  else if k = "numFleetReinforced:" then { s with num_fleet_reinforced := (parseI32 v).getD 0 }
  else if k = "numFleetGenerated:" then { s with num_fleet_generated := (parseI32 v).getD 0 }
  else if k = "totalTroopsGenerated:" then { s with total_troops_generated := (parseI32 v).getD 0 }
  else s

/-- Key-value collection block (lines 529-560): when a slot is current
and the line splits into exactly two tokens, the current slot record is
updated through the key match. -/
def scanKVStep (st : ScanState) (line : String) : ScanState :=
  match st.current_bot with
  | some bot_key =>
    match splitSp line with
    | [k, v] =>
      match mapGet st.stats bot_key with
      | some _ => { st with stats := mapUpdate st.stats bot_key (fun s => statUpdate s k v) }
      | none => st
    | _ => st
  | none => st

/-- One iteration of the stdout loop body (lines 495-561), in source
order: scores, L line, STAT slot switch, key-value stat update. -/
def scanStep (st : ScanState) (line : String) : ScanState :=
  scanKVStep (scanStatStep (scanLStep (scanScoreStep st line) line) line) line

/-- The whole stdout scan. -/
def scanAll (lines : List String) : ScanState :=
  lines.foldl scanStep initScan

/-- Survival-flag extraction after the scan (lines 563-583): a slot
survives iff its stats record exists and its survived field is true. -/
def setSurvivalFlags (stats : List (String × GamePlayerStats)) (g : NewGame2v2) : NewGame2v2 :=
  { g with
    team1bot1_survived :=
      match mapGet stats "team1bot1" with
      | some stat => stat.survived
      | none => false
    team1bot2_survived :=
      match mapGet stats "team1bot2" with
      | some stat => stat.survived
      | none => false
    team2bot1_survived :=
      match mapGet stats "team2bot1" with
      | some stat => stat.survived
      | none => false
    team2bot2_survived :=
      match mapGet stats "team2bot2" with
      | some stat => stat.survived
      | none => false }

/-- Winner table over the four survival flags (lines 585-598). -/
def applyWinnerTable (g : NewGame2v2) : NewGame2v2 :=
  match g.team1bot1_survived, g.team1bot2_survived,
      g.team2bot1_survived, g.team2bot2_survived with
  | true, true, false, false => { g with winner_id := g.team1_id }
  | true, false, false, false => { g with winner_id := g.team1_id }
  | false, true, false, false => { g with winner_id := g.team1_id }
  | false, false, true, true => { g with winner_id := g.team2_id }
  | false, false, true, false => { g with winner_id := g.team2_id }
  | false, false, false, true => { g with winner_id := g.team2_id }
  | _, _, _, _ => { g with winner_id := "" }

/-- Score tie-break (lines 600-610): when the table left the winner
undetermined, team1 wins on a strictly larger yellow+green total,
otherwise team2 wins (so an exact tie goes to team2).  The two score
sums are i32 additions in the source, so they are modelled with the
wrapping addI32 (release builds wrap on overflow; debug builds panic). -/
def applyScoreTiebreak (s : ScanState) (g : NewGame2v2) : NewGame2v2 :=
  if g.winner_id = "" then
    { g with
      winner_id :=
        if addI32 s.r_yellow s.r_green > addI32 s.r_blue s.r_cyan then g.team1_id
        else g.team2_id }
  else g

/-- The healthy parse up to but excluding the final re-dispatch check:
scan, survival flags, winner table, score tie-break (lines 495-610).
Returns the scan state alongside the updated game. -/
def healthyCore (lines : List String) (g : NewGame2v2) : ScanState × NewGame2v2 :=
  let s := scanAll lines
  (s, applyScoreTiebreak s (applyWinnerTable (setSurvivalFlags s.stats g)))

/-- parse_healthy_game (lines 478-616): the core scan and winner
resolution, followed by the re-dispatch to the bugged parser when no
stats were collected but an L line was remembered (lines 611-615).  The
else-branch only serialises additional_data and is a no-op here. -/
def parse_healthy_game (lines _errors : List String) (g : NewGame2v2) : NewGame2v2 :=
  let r := healthyCore lines g
  if r.1.stats.isEmpty && r.1.last_L.isSome then
    parse_bugged_game [] [(r.1.last_L).getD ""] r.2
  else r.2

/-- parse_game dispatch (lines 403-408): stderr always starts with one
sentinel line, so more than one stderr line selects the bugged parser.
The trailing elo computation and database insert are effectful
collaborators outside the parser and are not modelled. -/
def parse_game (lines errors : List String) (g : NewGame2v2) : NewGame2v2 :=
  if errors.length > 1 then parse_bugged_game lines errors g
  else parse_healthy_game lines errors g

/-- The winner assignment as the amended claim C1 words it: the six
decisive flag combinations in slot order pick a team, every other
combination is resolved by comparing the wrapping 32-bit sum of yellow
and green against the wrapping 32-bit sum of blue and cyan, with ties
to team2.  (The original claim compared the exact sums; the source adds
the scores as i32, which wraps on overflow.) -/
def claimedWinner (b11 b12 b21 b22 : Bool) (ryellow rgreen rblue rcyan : Int)
    (t1 t2 : String) : String :=
  match b11, b12, b21, b22 with
  | true, true, false, false => t1
  | true, false, false, false => t1
  | false, true, false, false => t1
  | false, false, true, true => t2
  | false, false, true, false => t2
  | false, false, false, true => t2
  | _, _, _, _ => if addI32 ryellow rgreen > addI32 rblue rcyan then t1 else t2

/-! ## Pair generator (matchmaker_2v2.rs lines 852-879)

Randomness is modelled by a function giving the raw draw at each step;
the source draws gen_range(0..len), modelled as the raw draw taken mod
the live pool length, so every possible execution of the source
corresponds to some draw function and conversely.
-/

/-- Vec::swap_remove(i): return the element at i, move the last element
into its place and drop the final slot. -/
def swapRemove {α : Type} (l : List α) (i : Fin l.length) : α × List α :=
  (l.get i,
   (l.set i.val
      (l.getLast (by
        have h := i.isLt
        exact List.ne_nil_of_length_pos (by omega)))).dropLast)

/-- The while loop of create_match_pairs (lines 861-876): while fewer
pairs than the target exist, draw and swap-remove a first ticket, stop if
the pool emptied, draw and swap-remove a second ticket, append the pair.
The pool-empty guard before the first draw is unreachable from the
initial call (gen_range over an empty range panics in the source). -/
def pairsLoop (rand : Nat → Nat) (k G : Nat) (players : List Nat)
    (pairs : List (Nat × Nat)) : List (Nat × Nat) :=
  if pairs.length < G then
    if hp : players.length = 0 then
      pairs
    else
      if hp1 : (swapRemove players
          ⟨rand k % players.length, Nat.mod_lt _ (Nat.pos_of_ne_zero hp)⟩).2.length = 0 then
        pairs
      else
        pairsLoop rand (k + 2) G
          (swapRemove
            (swapRemove players
              ⟨rand k % players.length, Nat.mod_lt _ (Nat.pos_of_ne_zero hp)⟩).2
            ⟨rand (k + 1) % (swapRemove players
              ⟨rand k % players.length, Nat.mod_lt _ (Nat.pos_of_ne_zero hp)⟩).2.length,
             Nat.mod_lt _ (Nat.pos_of_ne_zero hp1)⟩).2
          (pairs ++
            [((swapRemove players
                ⟨rand k % players.length, Nat.mod_lt _ (Nat.pos_of_ne_zero hp)⟩).1,
              (swapRemove
                (swapRemove players
                  ⟨rand k % players.length, Nat.mod_lt _ (Nat.pos_of_ne_zero hp)⟩).2
                ⟨rand (k + 1) % (swapRemove players
                  ⟨rand k % players.length, Nat.mod_lt _ (Nat.pos_of_ne_zero hp)⟩).2.length,
                 Nat.mod_lt _ (Nat.pos_of_ne_zero hp1)⟩).1)])
  else pairs
termination_by players.length
decreasing_by
  simp only [swapRemove, List.length_dropLast, List.length_set] at *
  omega

/-- create_match_pairs (lines 852-879).  games_to_play is the f32
ceiling of N*K/2, exact over the naturals for all pool sizes where the
f32 product is exact (N*K up to 2^24; the faithfulness hypothesis appears
in the theorems).  The ticket pool repeats the index range 0..N a total
of match_num times.  The source pushes teams[i].clone() as each pair is
formed; building the index pairs first and mapping them through the team
list afterwards yields the same list. -/
def create_match_pairs (rand : Nat → Nat) (match_num : Nat)
    (teams : List Team) : List (Team × Team) :=
  let games_to_play := (teams.length * match_num + 1) / 2
  let players : List Nat := (List.replicate match_num (List.range teams.length)).flatten
  (pairsLoop rand 0 games_to_play players []).map
    (fun p => ((teams.get? p.1).getD defaultTeam, (teams.get? p.2).getD defaultTeam))

/-- Occurrence count with decidable equality (the multiset view used by
the pairing claims). -/
def cnt {α : Type} [DecidableEq α] (a : α) : List α → Nat
  | [] => 0
  | b :: l => (if b = a then 1 else 0) + cnt a l

/-- All slots of a pair list, in order. -/
def flattenPairs {α : Type} : List (α × α) → List α
  | [] => []
  | p :: t => p.1 :: p.2 :: flattenPairs t

/-- How often a team occurs across all produced pairs. -/
def occTeam (t : Team) (prs : List (Team × Team)) : Nat :=
  cnt t (flattenPairs prs)

/-! ## Evaluator invocation (matchmaker_2v2.rs lines 247-306)

Only the argv construction is modelled; process spawning, stream capture
and archiving are effectful collaborators no claim reasons about beyond
the argument list.
-/

/-- The per-match staging directory (line 261). -/
def match_folder (match_id : String) : String :=
  joinPath "./resources/matches" match_id

/-- The bots vec in fixed slot order (line 273). -/
def bot_slot_ids (team1 team2 : Team) : List String :=
  [team1.bot1, team1.bot2, team2.bot1, team2.bot2]

/-- The copied bot directories handed to the evaluator (lines 284-290):
the match folder joined with each slot bot id, rendered as a string. -/
def bot_paths (match_id : String) (team1 team2 : Team) : List String :=
  (bot_slot_ids team1 team2).map (fun b => joinPath (match_folder match_id) b)

/-- The full evaluator argv (lines 292-297). -/
def command_args (match_id : String) (team1 team2 : Team) : List String :=
  ["-jar", "resources/gamefiles/Evaluator.jar", "--gui=false"]
    ++ bot_paths match_id team1 team2

/-! ## Bot compilation (matchmaker_2v2.rs lines 696-835)

The filesystem and child processes are abstracted into an environment
record; compile_bot is a pure function of that environment and the bot.
-/

/-- io::ErrorKind, restricted to the kinds the matchmaker constructs or
passes through. -/
inductive IOKind where
  | notFound
  | other
deriving DecidableEq

/-- std::io::Error as a kind plus message. -/
structure IOErr where
  kind : IOKind
  msg : String
deriving DecidableEq

/-- Modelled from the spec: the MatchMakerError taxonomy (section 7);
src/models/errors.rs is not among the given sources.  The constructors
are the ones matchmaker_2v2.rs builds: DatabaseError, IOError,
InvalidPath, PlayerFileMissing, MainMethodNotInPlayerFile. -/
inductive MatchMakerError where
  | DatabaseError (msg : String)
  | IOError (e : IOErr)
  | InvalidPath (p : String)
  | PlayerFileMissing
  | MainMethodNotInPlayerFile
deriving DecidableEq

/-- Outcomes of the external effects compile_bot performs, in source
order: workdir creation, the cp of the archive, the unzip, the flat
directory listing, reading the Player file, and the javac run.  For the
fallible process steps, none means success. -/
structure CompileEnv where
  create_dir_all : String → Option IOErr
  cp : String → String → Option IOErr
  unzip : String → String → Option IOErr
  read_dir : String → Except IOErr (List String)
  read_lines : String → Except IOErr (List String)
  javac : List String → Option IOErr

/-- Path::file_name: the final path component; none for an empty or
dot-dot final component. -/
def fileName (p : String) : Option String :=
  match (splitCh '/' p).getLast? with
  | none => none
  | some base => if base = "" ∨ base = ".." then none else some base

/-- Path::extension: the part of the final component after its last dot;
none when there is no dot, or when the only dot is the leading one of a
hidden file. -/
def extOf (p : String) : Option String :=
  match (splitCh '/' p).getLast? with
  | none => none
  | some base =>
    match splitCh '.' base with
    | [] => none
    | [_] => none
    | "" :: rest => if rest.length ≤ 1 then none else rest.getLast?
    | parts => parts.getLast?

/-- compile_bot (lines 737-835).  The to_str conversions of lines
747-754 and 770-780 can only fail on non-UTF-8 OS strings, which a Lean
String cannot represent, so those InvalidPath branches are vacuous here;
the file_name extraction (lines 765-768) keeps its failure branch. -/
def compile_bot (env : CompileEnv) (bot : Bot) : Except MatchMakerError Unit :=
  let workdir := joinPath "./resources/workdir/bots" bot.id
  match env.create_dir_all workdir with
  | some e => .error (.IOError e)
  | none =>
    match env.cp bot.source_path workdir with
    | some e => .error (.IOError e)
    | none =>
      match fileName bot.source_path with
      | none => .error (.InvalidPath bot.source_path)
      | some file_name =>
        match env.unzip (joinPath workdir file_name) workdir with
        | some e => .error (.IOError e)
        | none =>
          match env.read_dir workdir with
          | .error e => .error (.IOError e)
          | .ok entries =>
            let java_files := entries.filter (fun p => extOf p = some "java")
            if java_files.isEmpty then
              .error (.IOError ⟨.notFound, "No Java files found"⟩)
            else if ¬ java_files.any (fun f => strEndsWith f "Player.java") then
              .error .PlayerFileMissing
            else
              match env.read_lines
                  ((java_files.find? (fun f => strContains f "Player.java")).getD "") with
              | .error _ => .error .MainMethodNotInPlayerFile
              | .ok ls =>
                if ¬ ls.any (fun line => strContains line "public static void main(") then
                  .error .MainMethodNotInPlayerFile
                else
                  match env.javac java_files with
                  | some e => .error (.IOError e)
                  | none => .ok ()

/-! ## Cleanup (matchmaker_2v2.rs lines 135-154) -/

/-- One fs::read_dir entry: its path and whether it is a directory. -/
structure MatchEntry where
  path : String
  is_dir : Bool

/-- Outcomes of the effects cleanup_matches performs: the directory
listing of ./resources/matches (whose entries are themselves fallible)
and each remove_dir_all call. -/
structure CleanupEnv where
  read_dir_matches : Except IOErr (List (Except IOErr MatchEntry))
  remove_dir_all : String → Option IOErr

/-- The entry loop (lines 139-147): erroneous entries are skipped,
directory entries are removed, and the first removal failure aborts with
an IO error.  The second component instruments which directories were
removed successfully.  The trailing kill of stray java processes (lines
150-152) swallows all failures and never changes the result. -/
def cleanupLoop (env : CleanupEnv) :
    List (Except IOErr MatchEntry) → List String →
    Except MatchMakerError Unit × List String
  | [], removed => (.ok (), removed)
  | .error _ :: rest, removed => cleanupLoop env rest removed
  | .ok entry :: rest, removed =>
    if entry.is_dir then
      match env.remove_dir_all entry.path with
      | some e => (.error (.IOError e), removed)
      | none => cleanupLoop env rest (removed ++ [entry.path])
    else cleanupLoop env rest removed

/-- cleanup_matches (lines 135-154): a failing read_dir is silently
skipped by the if-let and the function returns Ok having removed
nothing. -/
def cleanup_matches (env : CleanupEnv) : Except MatchMakerError Unit × List String :=
  match env.read_dir_matches with
  | .error _ => (.ok (), [])
  | .ok entries => cleanupLoop env entries []

/-! ## Worker pool sizing (matchmaker_2v2.rs lines 70-80) -/

/-- The thread count requested from the pool builder (lines 71-74): one
less than the number of logical cores, with no lower bound. -/
def num_threads (num_cores : Nat) : Nat :=
  num_cores - 1

/-! ## Concrete fixtures used by witnesses and counterexamples -/

/-- A concrete team. -/
def teamA : Team := ⟨"TA", "oa", "pa", "comp", "a1", "a2", "t0"⟩

/-- A concrete team. -/
def teamB : Team := ⟨"TB", "ob", "pb", "comp", "b1", "b2", "t0"⟩

/-- A concrete team. -/
def teamC : Team := ⟨"TC", "oc", "pc", "comp", "c1", "c2", "t0"⟩

/-- A concrete fresh game between teams T1 and T2 with four distinct
slot bot ids. -/
def gameAB : NewGame2v2 :=
  NewGame2v2.new "T1" "T2" "id-a" "id-b" "id-c" "id-d"

/-- A concrete bot. -/
def botX : Bot := ⟨"bot-7", "./uploads/bot7.zip"⟩

/-- A compile environment where every external step succeeds and the
workdir listing holds no java file. -/
def envNoJava : CompileEnv :=
  { create_dir_all := fun _ => none
    cp := fun _ _ => none
    unzip := fun _ _ => none
    read_dir := fun _ => .ok ["readme.txt", "bot7.zip"]
    read_lines := fun _ => .ok []
    javac := fun _ => none }

/-- A compile environment where every external step succeeds and the
workdir listing is empty. -/
def envEmptyDir : CompileEnv :=
  { create_dir_all := fun _ => none
    cp := fun _ _ => none
    unzip := fun _ _ => none
    read_dir := fun _ => .ok []
    read_lines := fun _ => .ok []
    javac := fun _ => none }

/-- A cleanup environment whose directory listing fails. -/
def envReadFail : CleanupEnv :=
  { read_dir_matches := .error ⟨.other, "permission denied"⟩
    remove_dir_all := fun _ => none }

/-- The score effect of one scanned line exactly as claim C10 words it:
substring containment of R-space plus a three-token split with a colour
third token overwrites that colour with the parsed second token; every
other line leaves the four scores unchanged. -/
def claimedScores (st : ScanState) (line : String) : Int × Int × Int × Int :=
  if strContains line "R " then
    match splitSp line with
    | [_, v, "green"] => ((parseI32 v).getD 0, st.r_blue, st.r_yellow, st.r_cyan)
    | [_, v, "blue"] => (st.r_green, (parseI32 v).getD 0, st.r_yellow, st.r_cyan)
    | [_, v, "yellow"] => (st.r_green, st.r_blue, (parseI32 v).getD 0, st.r_cyan)
    | [_, v, "cyan"] => (st.r_green, st.r_blue, st.r_yellow, (parseI32 v).getD 0)
    | _ => (st.r_green, st.r_blue, st.r_yellow, st.r_cyan)
  else (st.r_green, st.r_blue, st.r_yellow, st.r_cyan)

/-! ## Helper lemmas about the blame scan -/

lemma getLast?_mem_of_eq {α : Type} {l : List α} {a : α} (h : l.getLast? = some a) : a ∈ l := by
  have hmem : a ∈ l.getLast? := by rw [h]; rfl
  have := List.dropLast_append_getLast? a hmem
  rw [← this]
  exact List.mem_append_right _ (List.mem_singleton_self a)

lemma firstMatchIn_eq_filter_head (row : String) (ids : List String) :
    firstMatchIn row ids = (ids.filter (fun id => strContains row id)).head? := by
  induction ids with
  | nil => rfl
  | cons id rest ih =>
    by_cases h : strContains row id = true
    · simp [firstMatchIn, List.filter_cons, h]
    · simp [firstMatchIn, List.filter_cons, h, ih]

lemma firstMatchIn_mem {row b : String} {ids : List String}
    (h : firstMatchIn row ids = some b) : b ∈ ids := by
  induction ids with
  | nil => simp [firstMatchIn] at h
  | cons id rest ih =>
    by_cases hc : strContains row id = true
    · simp [firstMatchIn, hc] at h
      simp [h]
    · simp [firstMatchIn, hc] at h
      exact List.mem_cons_of_mem _ (ih h)

lemma firstMatchIn_none_iff (row : String) (ids : List String) :
    firstMatchIn row ids = none ↔ ∀ id ∈ ids, strContains row id = false := by
  induction ids with
  | nil => simp [firstMatchIn]
  | cons id rest ih =>
    by_cases hc : strContains row id = true
    · simp [firstMatchIn, hc]
    · rw [firstMatchIn, if_neg (by simp [hc])]
      rw [ih]
      constructor
      · intro h
        intro x hx
        rcases List.mem_cons.mp hx with rfl | hx2
        · simp at hc
          exact hc
        · exact h x hx2
      · intro h x hx
        exact h x (List.mem_cons_of_mem _ hx)

lemma findBlamed_concat (errors : List String) (row : String) (ids : List String) :
    findBlamed (errors ++ [row]) ids =
      match firstMatchIn row ids with
      | some b => some b
      | none => findBlamed errors ids := by
  simp only [findBlamed, List.foldl_append, List.foldl_cons, List.foldl_nil]

lemma findBlamed_eq_getLast (errors ids : List String) :
    findBlamed errors ids =
      (errors.filterMap (fun row => firstMatchIn row ids)).getLast? := by
  induction errors using List.reverseRecOn with
  | nil => rfl
  | append_singleton l row ih =>
    rw [findBlamed_concat, List.filterMap_append]
    cases h : firstMatchIn row ids with
    | none => simp [h, ih]
    | some b => simp [h, List.getLast?_concat]

lemma findBlamed_none_iff (errors ids : List String) :
    findBlamed errors ids = none ↔
      ∀ row ∈ errors, ∀ id ∈ ids, strContains row id = false := by
  rw [findBlamed_eq_getLast, List.getLast?_eq_none_iff, List.filterMap_eq_nil_iff]
  constructor
  · intro h row hr
    exact (firstMatchIn_none_iff row ids).mp (h row hr)
  · intro h row hr
    exact (firstMatchIn_none_iff row ids).mpr (h row hr)

lemma findBlamed_mem {errors ids : List String} {b : String}
    (h : findBlamed errors ids = some b) : b ∈ ids := by
  rw [findBlamed_eq_getLast] at h
  rcases List.mem_filterMap.mp (getLast?_mem_of_eq h) with ⟨row, _, hfm⟩
  exact firstMatchIn_mem hfm

/-! ## Helper lemmas about the bugged parser -/

lemma applyBlame_ids (b : String) (g : NewGame2v2) :
    (applyBlame b g).team1_id = g.team1_id ∧
    (applyBlame b g).team2_id = g.team2_id ∧
    (applyBlame b g).team1bot1_id = g.team1bot1_id ∧
    (applyBlame b g).team1bot2_id = g.team1bot2_id ∧
    (applyBlame b g).team2bot1_id = g.team2bot1_id ∧
    (applyBlame b g).team2bot2_id = g.team2bot2_id := by
  by_cases h1 : g.team1bot1_id = b <;> by_cases h2 : g.team1bot2_id = b <;>
    by_cases h3 : g.team2bot1_id = b <;> by_cases h4 : g.team2bot2_id = b <;>
    simp [applyBlame, h1, h2, h3, h4]

lemma applyBlame_winner_cases (b : String) (g : NewGame2v2) :
    (applyBlame b g).winner_id = g.winner_id ∨
    (applyBlame b g).winner_id = g.team1_id ∨
    (applyBlame b g).winner_id = g.team2_id := by
  by_cases h1 : g.team1bot1_id = b <;> by_cases h2 : g.team1bot2_id = b <;>
    by_cases h3 : g.team2bot1_id = b <;> by_cases h4 : g.team2bot2_id = b <;>
    simp [applyBlame, h1, h2, h3, h4]

lemma applyBlame_winner_of_mem (b : String) (g : NewGame2v2) (hb : b ∈ slotIds g) :
    (applyBlame b g).winner_id = g.team1_id ∨
    (applyBlame b g).winner_id = g.team2_id := by
  by_cases h1 : g.team1bot1_id = b <;> by_cases h2 : g.team1bot2_id = b <;>
    by_cases h3 : g.team2bot1_id = b <;> by_cases h4 : g.team2bot2_id = b <;>
    first
      | (simp [applyBlame, h1, h2, h3, h4]; done)
      | (simp [applyBlame, h1, h2, h3, h4]
         simp [slotIds] at hb
         rcases hb with hb | hb | hb | hb <;> simp_all)

lemma parse_bugged_ids (lines errors : List String) (g : NewGame2v2) :
    (parse_bugged_game lines errors g).team1_id = g.team1_id ∧
    (parse_bugged_game lines errors g).team2_id = g.team2_id := by
  unfold parse_bugged_game
  cases h : findBlamed errors (slotIds g) with
  | none => simp
  | some b =>
    simp only
    exact ⟨(applyBlame_ids b _).1, (applyBlame_ids b _).2.1⟩

lemma parse_bugged_no_blame (lines errors : List String) (g : NewGame2v2)
    (h : findBlamed errors (slotIds g) = none) :
    parse_bugged_game lines errors g =
      { g with
        team1bot1_survived := true
        team1bot2_survived := true
        team2bot1_survived := true
        team2bot2_survived := true } := by
  simp [parse_bugged_game, h]

lemma parse_bugged_winner_of_blame (lines errors : List String) (g : NewGame2v2)
    {b : String} (h : findBlamed errors (slotIds g) = some b) :
    (parse_bugged_game lines errors g).winner_id = g.team1_id ∨
    (parse_bugged_game lines errors g).winner_id = g.team2_id := by
  have hb : b ∈ slotIds g := findBlamed_mem h
  unfold parse_bugged_game
  rw [h]
  exact applyBlame_winner_of_mem b _ hb

lemma parse_bugged_winner_cases (lines errors : List String) (g : NewGame2v2) :
    (parse_bugged_game lines errors g).winner_id = g.winner_id ∨
    (parse_bugged_game lines errors g).winner_id = g.team1_id ∨
    (parse_bugged_game lines errors g).winner_id = g.team2_id := by
  unfold parse_bugged_game
  cases h : findBlamed errors (slotIds g) with
  | none => simp
  | some b =>
    simp only
    exact applyBlame_winner_cases b _

/-! ## Claims C4, C6, C7, C8, C9 -/

/-- C4 counterexample: with stderr lines dot-sentinel, then a line naming
the team1 bot1 id, then a line naming the team2 bot1 id, the claim
predicts that the first id-bearing line wins the blame (team1bot1 loses
its flag and team2 wins); the code instead blames the bot of the last
id-bearing line, keeps team1bot1 alive, drops team2bot1 and awards
team1. -/
theorem C4_counterexample :
    findBlamed ["...", "x id-a", "x id-c"] (slotIds gameAB) = some "id-c" ∧
    (parse_bugged_game [] ["...", "x id-a", "x id-c"] gameAB).team1bot1_survived = true ∧
    (parse_bugged_game [] ["...", "x id-a", "x id-c"] gameAB).team2bot1_survived = false ∧
    (parse_bugged_game [] ["...", "x id-a", "x id-c"] gameAB).winner_id = "T1" ∧
    some "id-c" ≠ some "id-a" := by
  decide

/-- C4 amended: the blamed bot is found by scanning all stderr lines in
order while remembering the most recent hit, so it is determined by the
LAST line that contains any slot bot id (the inner break in the source
only leaves the loop over the four ids); within that line the first
matching id in slot order is chosen.  Earlier id-bearing lines are
overwritten. -/
theorem C4_blame_last (errors ids : List String) :
    findBlamed errors ids =
      (errors.filterMap
        (fun row => (ids.filter (fun id => strContains row id)).head?)).getLast? := by
  have hfun : (fun row => firstMatchIn row ids) =
      (fun row => (ids.filter (fun id => strContains row id)).head?) :=
    funext fun row => firstMatchIn_eq_filter_head row ids
  rw [findBlamed_eq_getLast, hfun]

/-- C6 counterexample: at a concrete match id and concrete teams, the
evaluator argv holds the slot paths under ./resources/matches/, which are
relative paths (they do not start with a slash), not absolute ones as the
claim states. -/
theorem C6_counterexample :
    command_args "m1" teamA teamB =
      ["-jar", "resources/gamefiles/Evaluator.jar", "--gui=false",
       "./resources/matches/m1/a1", "./resources/matches/m1/a2",
       "./resources/matches/m1/b1", "./resources/matches/m1/b2"] ∧
    isAbsolutePath "./resources/matches/m1/a1" = false := by
  exact ⟨by decide, by decide⟩

/-- C6 amended: the evaluator argv is exactly -jar, the evaluator jar
path, the gui flag, then the four copied bot directories in the fixed
slot order team1.bot1, team1.bot2, team2.bot1, team2.bot2 - where each
path is the CWD-relative ./resources/matches/match-id/bot-id, not an
absolute path. -/
theorem C6_argv (match_id : String) (team1 team2 : Team) :
    command_args match_id team1 team2 =
      ["-jar", "resources/gamefiles/Evaluator.jar", "--gui=false",
       "./resources/matches/" ++ match_id ++ "/" ++ team1.bot1,
       "./resources/matches/" ++ match_id ++ "/" ++ team1.bot2,
       "./resources/matches/" ++ match_id ++ "/" ++ team2.bot1,
       "./resources/matches/" ++ match_id ++ "/" ++ team2.bot2] := by
  have hlit : "./resources/matches" ++ "/" = "./resources/matches/" := rfl
  simp [command_args, bot_paths, bot_slot_ids, match_folder, joinPath, ← hlit,
    String.append_assoc]

/-- C7 counterexample: with every external step succeeding and a workdir
listing that contains entries but no java file, compile_bot fails with
the IO classification (io NotFound, message No Java files found) rather
than a distinct NoSources error; the error taxonomy built by the source
has no NoSources constructor at all. -/
theorem C7_counterexample :
    compile_bot envNoJava botX = .error (.IOError ⟨.notFound, "No Java files found"⟩) ∧
    compile_bot envNoJava botX ≠ .error .PlayerFileMissing ∧
    compile_bot envNoJava botX ≠ .error .MainMethodNotInPlayerFile := by
  have h : compile_bot envNoJava botX = .error (.IOError ⟨.notFound, "No Java files found"⟩) := by
    rfl
  refine ⟨h, ?_, ?_⟩ <;> (rw [h]; simp)

/-- C7 amended: when the flat scan of the workdir finds no entry with a
java extension (and the preceding directory creation, archive copy and
unzip steps succeeded), compile_bot fails with the IO-classified error
io NotFound carrying the message No Java files found; it is distinct
from PlayerFileMissing and MainMethodNotInPlayerFile but is not a
separate NoSources classification. -/
theorem C7_no_sources (env : CompileEnv) (bot : Bot) (f : String)
    (entries : List String)
    (hcd : env.create_dir_all (joinPath "./resources/workdir/bots" bot.id) = none)
    (hcp : env.cp bot.source_path (joinPath "./resources/workdir/bots" bot.id) = none)
    (hfn : fileName bot.source_path = some f)
    (hz : env.unzip (joinPath (joinPath "./resources/workdir/bots" bot.id) f)
      (joinPath "./resources/workdir/bots" bot.id) = none)
    (hrd : env.read_dir (joinPath "./resources/workdir/bots" bot.id) = .ok entries)
    (hempty : entries.filter (fun p => extOf p = some "java") = []) :
    compile_bot env bot = .error (.IOError ⟨.notFound, "No Java files found"⟩) := by
  simp [compile_bot, hcd, hcp, hfn, hz, hrd, hempty]

/-- C7 witness: the amended no-sources theorem applied to a concrete
environment with an empty workdir listing. -/
theorem C7_witness :
    compile_bot envEmptyDir botX = .error (.IOError ⟨.notFound, "No Java files found"⟩) :=
  C7_no_sources envEmptyDir botX "bot7.zip" [] rfl rfl rfl rfl rfl rfl

/-- C8 counterexample: on a single-CPU host the code computes 1 - 1 = 0
as the requested worker-thread count, not max(1, cpus-1) = 1; there is no
lower bound in the source. -/
theorem C8_counterexample :
    num_threads 1 = 0 ∧ num_threads 1 ≠ max 1 (1 - 1) := by
  decide

/-- C8 amended: the round orchestrator requests num_logical_cpus - 1
worker threads from the pool builder; on every host with at least two
logical CPUs this equals max(1, cpus-1) and is at least one.  On a
single-CPU host the request is 0 threads, which the pool library
interprets as choose automatically rather than as one thread. -/
theorem C8_pool_size (c : Nat) (h : 2 ≤ c) :
    num_threads c = max 1 (c - 1) ∧ 1 ≤ num_threads c := by
  simp only [num_threads]
  omega

/-- C8 witness: the amended pool-size theorem at four logical CPUs. -/
theorem C8_witness : num_threads 4 = max 1 (4 - 1) ∧ 1 ≤ num_threads 4 :=
  C8_pool_size 4 (by omega)

lemma cleanupLoop_error (env : CleanupEnv) :
    ∀ (es : List (Except IOErr MatchEntry)) (removed : List String)
      (m : MatchMakerError), (cleanupLoop env es removed).1 = .error m →
      ∃ entry ioe, (.ok entry) ∈ es ∧ entry.is_dir = true ∧
        env.remove_dir_all entry.path = some ioe ∧ m = .IOError ioe := by
  intro es
  induction es with
  | nil =>
    intro removed m hm
    simp [cleanupLoop] at hm
  | cons e rest ih =>
    intro removed m hm
    cases e with
    | error _ =>
      rw [cleanupLoop] at hm
      rcases ih _ _ hm with ⟨entry, ioe, hmem, hdir, hrm, hme⟩
      exact ⟨entry, ioe, List.mem_cons_of_mem _ hmem, hdir, hrm, hme⟩
    | ok entry =>
      by_cases hdir : entry.is_dir = true
      · cases hrm : env.remove_dir_all entry.path with
        | some ioe =>
          rw [cleanupLoop] at hm
          simp [hdir, hrm] at hm
          exact ⟨entry, ioe, List.mem_cons_self _ _, hdir, hrm, hm.symm⟩
        | none =>
          rw [cleanupLoop] at hm
          simp [hdir, hrm] at hm
          rcases ih _ _ hm with ⟨entry2, ioe2, hmem, hd2, hrm2, hme⟩
          exact ⟨entry2, ioe2, List.mem_cons_of_mem _ hmem, hd2, hrm2, hme⟩
      · rw [cleanupLoop] at hm
        simp [hdir] at hm
        rcases ih _ _ hm with ⟨entry2, ioe2, hmem, hd2, hrm2, hme⟩
        exact ⟨entry2, ioe2, List.mem_cons_of_mem _ hmem, hd2, hrm2, hme⟩

/-- C9: a failing read_dir on ./resources/matches makes cleanup_matches
return Ok having removed nothing; an IO error is surfaced exactly when
remove_dir_all fails on a successfully listed directory entry. -/
theorem C9_cleanup (env : CleanupEnv) :
    (∀ e, env.read_dir_matches = .error e → cleanup_matches env = (.ok (), [])) ∧
    (∀ m, (cleanup_matches env).1 = .error m →
      ∃ entries, env.read_dir_matches = .ok entries ∧
        ∃ entry ioe, (.ok entry) ∈ entries ∧ entry.is_dir = true ∧
          env.remove_dir_all entry.path = some ioe ∧ m = .IOError ioe) := by
  constructor
  · intro e he
    simp [cleanup_matches, he]
  · intro m hm
    cases hrd : env.read_dir_matches with
    | error e => simp [cleanup_matches, hrd] at hm
    | ok entries =>
      rw [cleanup_matches, hrd] at hm
      exact ⟨entries, rfl, cleanupLoop_error env entries [] m hm⟩

/-- C9 witness: a concrete environment whose directory listing fails is
cleaned up to Ok with nothing removed. -/
theorem C9_witness : cleanup_matches envReadFail = (.ok (), []) :=
  (C9_cleanup envReadFail).1 ⟨.other, "permission denied"⟩ rfl

/-! ## Helper lemmas about the stdout scan steps -/

lemma scanLStep_scores (st : ScanState) (line : String) :
    (scanLStep st line).r_green = st.r_green ∧
    (scanLStep st line).r_blue = st.r_blue ∧
    (scanLStep st line).r_yellow = st.r_yellow ∧
    (scanLStep st line).r_cyan = st.r_cyan := by
  by_cases h : strContains line "L " = true <;> simp [scanLStep, h]

lemma scanStatStep_scores (st : ScanState) (line : String) :
    (scanStatStep st line).r_green = st.r_green ∧
    (scanStatStep st line).r_blue = st.r_blue ∧
    (scanStatStep st line).r_yellow = st.r_yellow ∧
    (scanStatStep st line).r_cyan = st.r_cyan := by
  by_cases h : strContains line "STAT: " = true <;>
    cases hk : st.stats_keys.getLast? <;>
    simp [scanStatStep, h, hk]

lemma scanKVStep_scores (st : ScanState) (line : String) :
    (scanKVStep st line).r_green = st.r_green ∧
    (scanKVStep st line).r_blue = st.r_blue ∧
    (scanKVStep st line).r_yellow = st.r_yellow ∧
    (scanKVStep st line).r_cyan = st.r_cyan := by
  rw [scanKVStep]
  cases st.current_bot with
  | none => simp
  | some bot_key =>
    cases hsp : splitSp line with
    | nil => simp
    | cons a rest =>
      cases rest with
      | nil => simp
      | cons v rest2 =>
        cases rest2 with
        | nil =>
          cases hg : mapGet st.stats bot_key <;> simp [hg]
        | cons c rest3 => simp

/-- C10: score-line recognition in the healthy scan is by substring
containment of R-space, not by line shape: any line containing R-space
that splits into exactly three space-separated tokens whose third token
is a colour overwrites that colour with the parsed second token (0 on a
failed i32 parse) and leaves the other colours alone; every other line
(including ones containing R-space in the middle of a word, or not at
all) leaves all four scores unchanged.  In particular POWER 3 cyan
updates cyan. -/
theorem C10_score_lines (st : ScanState) (line : String) :
    ((scanStep st line).r_green, (scanStep st line).r_blue,
     (scanStep st line).r_yellow, (scanStep st line).r_cyan) =
      claimedScores st line := by
  have hk := scanKVStep_scores (scanStatStep (scanLStep (scanScoreStep st line) line) line) line
  have hs := scanStatStep_scores (scanLStep (scanScoreStep st line) line) line
  have hl := scanLStep_scores (scanScoreStep st line) line
  have hcomp :
      ((scanStep st line).r_green, (scanStep st line).r_blue,
       (scanStep st line).r_yellow, (scanStep st line).r_cyan) =
      ((scanScoreStep st line).r_green, (scanScoreStep st line).r_blue,
       (scanScoreStep st line).r_yellow, (scanScoreStep st line).r_cyan) := by
    rw [scanStep]
    rw [hk.1, hk.2.1, hk.2.2.1, hk.2.2.2, hs.1, hs.2.1, hs.2.2.1, hs.2.2.2,
      hl.1, hl.2.1, hl.2.2.1, hl.2.2.2]
  rw [hcomp, scanScoreStep, claimedScores]
  by_cases hr : strContains line "R " = true
  · simp only [hr, if_true]
    cases hsp : splitSp line with
    | nil => simp
    | cons a rest =>
      cases rest with
      | nil => simp
      | cons v rest2 =>
        cases rest2 with
        | nil => simp
        | cons c rest3 =>
          cases rest3 with
          | cons d rest4 => simp
          | nil =>
            by_cases hg : c = "green"
            · simp [hg]
            · by_cases hb : c = "blue"
              · simp [hg, hb]
              · by_cases hy : c = "yellow"
                · simp [hg, hb, hy]
                · by_cases hc : c = "cyan"
                  · simp [hg, hb, hy, hc]
                  · simp [hg, hb, hy, hc]
  · simp [hr]

/-- Concrete illustration of the substring quirk the C10 claim singles
out: the line POWER 3 cyan contains R-space inside the word POWER, splits
into three tokens, and therefore overwrites the cyan score. -/
lemma scanStep_power_cyan :
    (scanStep initScan "POWER 3 cyan").r_cyan = 3 ∧
    (scanStep initScan "POWER 3 cyan").r_green = 0 := by
  decide

/-! ## Helper lemmas about the healthy-mode winner resolution -/

lemma winnerResolve_preserves (s : ScanState) (g : NewGame2v2) :
    (applyScoreTiebreak s (applyWinnerTable g)).team1_id = g.team1_id ∧
    (applyScoreTiebreak s (applyWinnerTable g)).team2_id = g.team2_id ∧
    (applyScoreTiebreak s (applyWinnerTable g)).team1bot1_survived = g.team1bot1_survived ∧
    (applyScoreTiebreak s (applyWinnerTable g)).team1bot2_survived = g.team1bot2_survived ∧
    (applyScoreTiebreak s (applyWinnerTable g)).team2bot1_survived = g.team2bot1_survived ∧
    (applyScoreTiebreak s (applyWinnerTable g)).team2bot2_survived = g.team2bot2_survived := by
  rcases g with ⟨t1, t2, i1, i2, i3, i4, b1, b2, b3, b4, w⟩
  cases b1 <;> cases b2 <;> cases b3 <;> cases b4 <;>
    simp only [applyWinnerTable, applyScoreTiebreak] <;>
    split <;> simp

lemma winner_step (s : ScanState) (g : NewGame2v2)
    (h1 : g.team1_id ≠ "") (h2 : g.team2_id ≠ "") :
    (applyScoreTiebreak s (applyWinnerTable g)).winner_id =
      claimedWinner g.team1bot1_survived g.team1bot2_survived
        g.team2bot1_survived g.team2bot2_survived
        s.r_yellow s.r_green s.r_blue s.r_cyan g.team1_id g.team2_id := by
  rcases g with ⟨t1, t2, i1, i2, i3, i4, b1, b2, b3, b4, w⟩
  simp only at h1 h2
  cases b1 <;> cases b2 <;> cases b3 <;> cases b4 <;>
    simp [applyWinnerTable, applyScoreTiebreak, claimedWinner, h1, h2]

lemma claimedWinner_cases (b11 b12 b21 b22 : Bool) (ry rg rb rc : Int) (t1 t2 : String) :
    claimedWinner b11 b12 b21 b22 ry rg rb rc t1 t2 = t1 ∨
    claimedWinner b11 b12 b21 b22 ry rg rb rc t1 t2 = t2 := by
  cases b11 <;> cases b12 <;> cases b21 <;> cases b22 <;>
    simp only [claimedWinner] <;>
    first
      | (split <;> simp)
      | simp

/-! ## Claims C1, C2 and C5 -/

/-- C1 counterexample: with parsable stdout scores
yellow = green = 2000000000 (no STAT lines, so all survival flags come
out false, the table is indecisive and the tie-break runs) and an empty
stderr, the exact yellow+green total 4000000000 strictly exceeds
blue+cyan = 0, so the claim awards team1; the source adds the scores as
i32, the sum wraps to -294967296, and team2 wins the comparison against
0. -/
theorem C1_counterexample :
    (parse_game ["R 2000000000 yellow", "R 2000000000 green"] [] gameAB).winner_id =
      gameAB.team2_id ∧
    (healthyCore ["R 2000000000 yellow", "R 2000000000 green"] gameAB).1.r_yellow =
      2000000000 ∧
    (healthyCore ["R 2000000000 yellow", "R 2000000000 green"] gameAB).1.r_green =
      2000000000 ∧
    (healthyCore ["R 2000000000 yellow", "R 2000000000 green"] gameAB).1.r_blue = 0 ∧
    (healthyCore ["R 2000000000 yellow", "R 2000000000 green"] gameAB).1.r_cyan = 0 ∧
    ((2000000000 : Int) + 2000000000 > 0 + 0) ∧
    gameAB.team2_id ≠ gameAB.team1_id := by
  decide

/-- C1 amended: for a healthy-mode parse (at most one stderr line), the
dispatch goes to parse_healthy_game, and after the stdout scan the
winner of the core resolution is determined from the four survival
flags in slot order by the six decisive combinations; every other
combination falls back to the colour comparison, where team1 wins
exactly when the WRAPPING 32-bit sum of yellow and green strictly
exceeds the wrapping 32-bit sum of blue and cyan (the i32 additions of
the source wrap on overflow in release builds; debug builds panic), and
a tie awards team2.  Whenever both exact sums lie within the i32 range
this coincides with the exact comparison of the original claim.  (The
team ids are assumed non-empty; an empty team id would collide with the
undetermined marker in the source.) -/
theorem C1_healthy_winner_table (lines errors : List String) (g : NewGame2v2)
    (hmode : errors.length ≤ 1) (h1 : g.team1_id ≠ "") (h2 : g.team2_id ≠ "") :
    parse_game lines errors g = parse_healthy_game lines errors g ∧
    (healthyCore lines g).2.winner_id =
      claimedWinner (healthyCore lines g).2.team1bot1_survived
        (healthyCore lines g).2.team1bot2_survived
        (healthyCore lines g).2.team2bot1_survived
        (healthyCore lines g).2.team2bot2_survived
        (healthyCore lines g).1.r_yellow (healthyCore lines g).1.r_green
        (healthyCore lines g).1.r_blue (healthyCore lines g).1.r_cyan
        g.team1_id g.team2_id := by
  constructor
  · rw [parse_game, if_neg (by omega)]
  · have hp := winnerResolve_preserves (scanAll lines)
      (setSurvivalFlags (scanAll lines).stats g)
    have hkey := winner_step (scanAll lines)
      (setSurvivalFlags (scanAll lines).stats g) h1 h2
    have hpair : (healthyCore lines g).2 =
        applyScoreTiebreak (scanAll lines)
          (applyWinnerTable (setSurvivalFlags (scanAll lines).stats g)) := rfl
    have hfst : (healthyCore lines g).1 = scanAll lines := rfl
    rw [hpair, hfst, hkey, hp.2.2.1, hp.2.2.2.1, hp.2.2.2.2.1, hp.2.2.2.2.2]
    rfl

/-- C2: for a bugged-mode parse (more than one stderr line, i.e. the
evaluator emitted an exception after its dot sentinel), the dispatch goes
to parse_bugged_game; all four survival flags are first set to true;
when the blame scan finds a bot id the corresponding slot flag is
dropped to false, the other three stay true and the winner becomes the
opposing team id; when no bot id occurs anywhere in stderr all four
flags stay true and the winner stays the empty string of a fresh game.
(The four slot ids are assumed pairwise distinct, as they are for games
between teams with four distinct bots.) -/
theorem C2_bugged_parse (lines errors : List String) (g : NewGame2v2)
    (hmode : 1 < errors.length) (hw : g.winner_id = "")
    (hd : (slotIds g).Nodup) :
    parse_game lines errors g = parse_bugged_game lines errors g ∧
    (findBlamed errors (slotIds g) = none →
      (parse_bugged_game lines errors g).team1bot1_survived = true ∧
      (parse_bugged_game lines errors g).team1bot2_survived = true ∧
      (parse_bugged_game lines errors g).team2bot1_survived = true ∧
      (parse_bugged_game lines errors g).team2bot2_survived = true ∧
      (parse_bugged_game lines errors g).winner_id = "") ∧
    (∀ b, findBlamed errors (slotIds g) = some b →
      ((b = g.team1bot1_id →
        (parse_bugged_game lines errors g).team1bot1_survived = false ∧
        (parse_bugged_game lines errors g).team1bot2_survived = true ∧
        (parse_bugged_game lines errors g).team2bot1_survived = true ∧
        (parse_bugged_game lines errors g).team2bot2_survived = true ∧
        (parse_bugged_game lines errors g).winner_id = g.team2_id) ∧
       (b = g.team1bot2_id →
        (parse_bugged_game lines errors g).team1bot1_survived = true ∧
        (parse_bugged_game lines errors g).team1bot2_survived = false ∧
        (parse_bugged_game lines errors g).team2bot1_survived = true ∧
        (parse_bugged_game lines errors g).team2bot2_survived = true ∧
        (parse_bugged_game lines errors g).winner_id = g.team2_id) ∧
       (b = g.team2bot1_id →
        (parse_bugged_game lines errors g).team1bot1_survived = true ∧
        (parse_bugged_game lines errors g).team1bot2_survived = true ∧
        (parse_bugged_game lines errors g).team2bot1_survived = false ∧
        (parse_bugged_game lines errors g).team2bot2_survived = true ∧
        (parse_bugged_game lines errors g).winner_id = g.team1_id) ∧
       (b = g.team2bot2_id →
        (parse_bugged_game lines errors g).team1bot1_survived = true ∧
        (parse_bugged_game lines errors g).team1bot2_survived = true ∧
        (parse_bugged_game lines errors g).team2bot1_survived = true ∧
        (parse_bugged_game lines errors g).team2bot2_survived = false ∧
        (parse_bugged_game lines errors g).winner_id = g.team1_id))) ∧
    (findBlamed errors (slotIds g) = none ↔
      ∀ row ∈ errors, ∀ id ∈ slotIds g, strContains row id = false) := by
  have hdist : g.team1bot1_id ≠ g.team1bot2_id ∧ g.team1bot1_id ≠ g.team2bot1_id ∧
      g.team1bot1_id ≠ g.team2bot2_id ∧ g.team1bot2_id ≠ g.team2bot1_id ∧
      g.team1bot2_id ≠ g.team2bot2_id ∧ g.team2bot1_id ≠ g.team2bot2_id := by
    simp [slotIds, List.nodup_cons] at hd
    tauto
  refine ⟨by rw [parse_game, if_pos hmode], ?_, ?_, findBlamed_none_iff _ _⟩
  · intro hnone
    rw [parse_bugged_no_blame lines errors g hnone]
    simpa using hw
  · intro b hsome
    obtain ⟨d12, d13, d14, d23, d24, d34⟩ := hdist
    refine ⟨?_, ?_, ?_, ?_⟩ <;> intro heq <;> subst heq <;>
      (unfold parse_bugged_game; rw [hsome]; simp only) <;>
      simp [applyBlame, d12, d13, d14, d23, d24, d34,
        Ne.symm d12, Ne.symm d13, Ne.symm d14, Ne.symm d23, Ne.symm d24, Ne.symm d34]

/-- C2 witness: the bugged theorem applied to the concrete fresh game
gameAB with stderr blaming the team2 bot1 id. -/
theorem C2_witness :
    (parse_bugged_game [] ["...", "boom id-c"] gameAB).team2bot1_survived = false ∧
    (parse_bugged_game [] ["...", "boom id-c"] gameAB).team1bot1_survived = true ∧
    (parse_bugged_game [] ["...", "boom id-c"] gameAB).winner_id = gameAB.team1_id := by
  have h := C2_bugged_parse [] ["...", "boom id-c"] gameAB (by decide) (by rfl) (by decide)
  have h3 := (h.2.2.1 "id-c" (by decide)).2.2.1 rfl
  exact ⟨h3.2.2.1, h3.1, h3.2.2.2.2⟩

/-- C5: for every parser input the winner is team1, team2 or empty, and
it is empty exactly when the parse went to bugged mode and no slot bot
id occurs anywhere in stderr; a healthy-mode parse, including one that
re-dispatches to bugged mode through a remembered L line, never leaves
the winner empty.  (The game starts fresh with an empty winner and the
team ids are assumed non-empty and thus distinct from the undetermined
marker.) -/
theorem C5_winner_wellformed (lines errors : List String) (g : NewGame2v2)
    (hw : g.winner_id = "") (h1 : g.team1_id ≠ "") (h2 : g.team2_id ≠ "") :
    ((parse_game lines errors g).winner_id = g.team1_id ∨
     (parse_game lines errors g).winner_id = g.team2_id ∨
     (parse_game lines errors g).winner_id = "") ∧
    ((parse_game lines errors g).winner_id = "" ↔
      (1 < errors.length ∧
        ∀ row ∈ errors, ∀ id ∈ slotIds g, strContains row id = false)) := by
  by_cases hm : 1 < errors.length
  · rw [parse_game, if_pos hm]
    cases hfb : findBlamed errors (slotIds g) with
    | none =>
      rw [parse_bugged_no_blame lines errors g hfb]
      constructor
      · right; right; simpa using hw
      · simp only [hw]
        simpa using ⟨hm, (findBlamed_none_iff errors (slotIds g)).mp hfb⟩
    | some b =>
      have hwin := parse_bugged_winner_of_blame lines errors g hfb
      constructor
      · rcases hwin with hwin | hwin
        · exact Or.inl hwin
        · exact Or.inr (Or.inl hwin)
      · constructor
        · intro hempty
          rcases hwin with hwin | hwin <;> rw [hwin] at hempty <;> simp_all
        · rintro ⟨-, hnone⟩
          rw [(findBlamed_none_iff errors (slotIds g)).mpr hnone] at hfb
          exact absurd hfb (by simp)
  · rw [parse_game, if_neg hm]
    -- the healthy core always resolves a team winner
    have hp := winnerResolve_preserves (scanAll lines)
      (setSurvivalFlags (scanAll lines).stats g)
    have hkey := winner_step (scanAll lines)
      (setSurvivalFlags (scanAll lines).stats g) h1 h2
    have hcore : (healthyCore lines g).2.winner_id = g.team1_id ∨
        (healthyCore lines g).2.winner_id = g.team2_id := by
      show (applyScoreTiebreak (scanAll lines)
          (applyWinnerTable (setSurvivalFlags (scanAll lines).stats g))).winner_id = _ ∨
        (applyScoreTiebreak (scanAll lines)
          (applyWinnerTable (setSurvivalFlags (scanAll lines).stats g))).winner_id = _
      rw [hkey]
      exact claimedWinner_cases
        (setSurvivalFlags (scanAll lines).stats g).team1bot1_survived
        (setSurvivalFlags (scanAll lines).stats g).team1bot2_survived
        (setSurvivalFlags (scanAll lines).stats g).team2bot1_survived
        (setSurvivalFlags (scanAll lines).stats g).team2bot2_survived
        (scanAll lines).r_yellow (scanAll lines).r_green
        (scanAll lines).r_blue (scanAll lines).r_cyan g.team1_id g.team2_id
    have hcore_ids : (healthyCore lines g).2.team1_id = g.team1_id ∧
        (healthyCore lines g).2.team2_id = g.team2_id := ⟨hp.1, hp.2.1⟩
    have hout : (parse_healthy_game lines errors g).winner_id = g.team1_id ∨
        (parse_healthy_game lines errors g).winner_id = g.team2_id := by
      rw [parse_healthy_game]
      by_cases hrd : ((healthyCore lines g).1.stats.isEmpty &&
          (healthyCore lines g).1.last_L.isSome) = true
      · rw [if_pos hrd]
        have hbw := parse_bugged_winner_cases []
          [((healthyCore lines g).1.last_L).getD ""] (healthyCore lines g).2
        rcases hbw with hbw | hbw | hbw
        · rw [hbw]; exact hcore
        · rw [hbw, hcore_ids.1]; exact Or.inl rfl
        · rw [hbw, hcore_ids.2]; exact Or.inr rfl
      · rw [if_neg hrd]
        exact hcore
    constructor
    · rcases hout with hout | hout
      · exact Or.inl hout
      · exact Or.inr (Or.inl hout)
    · constructor
      · intro hempty
        rcases hout with hout | hout <;> rw [hout] at hempty <;> simp_all
      · rintro ⟨hm2, -⟩
        exact absurd hm2 hm

/-- The wrapping 32-bit addition agrees with the exact sum whenever that
sum lies within the i32 range, so the amended C1 tie-break coincides
with the original exact comparison for non-overflowing scores. -/
lemma addI32_eq_add_of_range (a b : Int) (h1 : -(2 ^ 31) ≤ a + b)
    (h2 : a + b < 2 ^ 31) : addI32 a b = a + b := by
  have e1 : (2 : Int) ^ 31 = 2147483648 := by norm_num
  have e2 : (2 : Int) ^ 32 = 4294967296 := by norm_num
  simp only [addI32, e1, e2] at h1 h2 ⊢
  omega

/-- C1 witness: the amended healthy theorem applied at a concrete stdout
with a yellow score line and an empty stderr. -/
theorem C1_witness :
    parse_game ["R 7 yellow"] [] gameAB = parse_healthy_game ["R 7 yellow"] [] gameAB ∧
    (healthyCore ["R 7 yellow"] gameAB).2.winner_id =
      claimedWinner (healthyCore ["R 7 yellow"] gameAB).2.team1bot1_survived
        (healthyCore ["R 7 yellow"] gameAB).2.team1bot2_survived
        (healthyCore ["R 7 yellow"] gameAB).2.team2bot1_survived
        (healthyCore ["R 7 yellow"] gameAB).2.team2bot2_survived
        (healthyCore ["R 7 yellow"] gameAB).1.r_yellow
        (healthyCore ["R 7 yellow"] gameAB).1.r_green
        (healthyCore ["R 7 yellow"] gameAB).1.r_blue
        (healthyCore ["R 7 yellow"] gameAB).1.r_cyan
        gameAB.team1_id gameAB.team2_id :=
  C1_healthy_winner_table ["R 7 yellow"] [] gameAB (by decide) (by decide) (by decide)

/-- C5 witness: the well-formedness theorem applied to the concrete
fresh game gameAB on a bugged stderr with no bot id, where the winner
comes out empty. -/
theorem C5_witness :
    ((parse_game [] ["...", "boom"] gameAB).winner_id = gameAB.team1_id ∨
     (parse_game [] ["...", "boom"] gameAB).winner_id = gameAB.team2_id ∨
     (parse_game [] ["...", "boom"] gameAB).winner_id = "") ∧
    ((parse_game [] ["...", "boom"] gameAB).winner_id = "" ↔
      (1 < (["...", "boom"] : List String).length ∧
        ∀ row ∈ (["...", "boom"] : List String), ∀ id ∈ slotIds gameAB,
          strContains row id = false)) :=
  C5_winner_wellformed [] ["...", "boom"] gameAB (by rfl) (by decide) (by decide)


/-! ## Helper lemmas for the pair generator -/

lemma cnt_append {α : Type} [DecidableEq α] (a : α) (l1 l2 : List α) :
    cnt a (l1 ++ l2) = cnt a l1 + cnt a l2 := by
  induction l1 with
  | nil => simp [cnt]
  | cons x t ih => simp [cnt, ih]; omega

lemma cnt_pos_of_mem {α : Type} [DecidableEq α] {a : α} {l : List α} (h : a ∈ l) :
    0 < cnt a l := by
  induction l with
  | nil => simp at h
  | cons x t ih =>
    rcases List.mem_cons.mp h with rfl | h2
    · simp [cnt]
    · have := ih h2
      simp only [cnt]
      omega

lemma cnt_set {α : Type} [DecidableEq α] :
    ∀ (l : List α) (i : Nat) (hi : i < l.length) (w a : α),
      cnt a (l.set i w) + (if l.get ⟨i, hi⟩ = a then 1 else 0) =
        cnt a l + (if w = a then 1 else 0) := by
  intro l
  induction l with
  | nil => intro i hi; simp at hi
  | cons x t ih =>
    intro i hi w a
    cases i with
    | zero => simp only [List.set, cnt, List.get]; omega
    | succ n =>
      have hn : n < t.length := by simpa using hi
      have := ih n hn w a
      simp only [List.set, cnt, List.get]
      omega

lemma cnt_dropLast {α : Type} [DecidableEq α] (l : List α) (h : l ≠ []) (a : α) :
    cnt a l.dropLast + (if l.getLast h = a then 1 else 0) = cnt a l := by
  conv_rhs => rw [← List.dropLast_append_getLast h]
  rw [cnt_append]
  simp [cnt]

lemma getLast_set_of_getLast {α : Type} (l : List α) (i : Nat) (w : α)
    (h : l ≠ []) (hw : l.getLast h = w) (h2 : l.set i w ≠ []) :
    (l.set i w).getLast h2 = w := by
  rw [List.getLast_eq_getElem (l.set i w) h2]
  rw [List.getElem_set]
  simp only [List.length_set]
  by_cases hil : i = l.length - 1
  · rw [if_pos hil]
  · rw [if_neg hil]
    rw [List.getLast_eq_getElem l h] at hw
    exact hw

lemma swapRemove_cnt {α : Type} [DecidableEq α] (l : List α) (i : Fin l.length) (a : α) :
    cnt a (swapRemove l i).2 + (if (swapRemove l i).1 = a then 1 else 0) = cnt a l := by
  have hne : l ≠ [] := List.ne_nil_of_length_pos (by have := i.isLt; omega)
  have h2 : l.set i.val (l.getLast hne) ≠ [] := by
    apply List.ne_nil_of_length_pos
    rw [List.length_set]
    have := i.isLt
    omega
  have hd := cnt_dropLast (l.set i.val (l.getLast hne)) h2 a
  have hs := cnt_set l i.val i.isLt (l.getLast hne) a
  have hg := getLast_set_of_getLast l i.val (l.getLast hne) hne rfl h2
  rw [hg] at hd
  have e2 : (swapRemove l i).2 = (l.set i.val (l.getLast hne)).dropLast := rfl
  have e1 : (swapRemove l i).1 = l.get ⟨i.val, i.isLt⟩ := rfl
  rw [e2, e1]
  omega

lemma flattenPairs_append {α : Type} (l1 l2 : List (α × α)) :
    flattenPairs (l1 ++ l2) = flattenPairs l1 ++ flattenPairs l2 := by
  induction l1 with
  | nil => rfl
  | cons p t ih => simp [flattenPairs, ih]

lemma flattenPairs_length {α : Type} (l : List (α × α)) :
    (flattenPairs l).length = 2 * l.length := by
  induction l with
  | nil => rfl
  | cons p t ih => simp [flattenPairs, ih]; omega

lemma flattenPairs_map_team (teams : List Team) (l : List (Nat × Nat)) :
    flattenPairs (l.map (fun p =>
        ((teams.get? p.1).getD defaultTeam, (teams.get? p.2).getD defaultTeam))) =
      (flattenPairs l).map (fun j => (teams.get? j).getD defaultTeam) := by
  induction l with
  | nil => rfl
  | cons p t ih =>
    simp only [List.map_cons, flattenPairs]
    rw [ih]

lemma cnt_flatten_replicate (k : Nat) (l : List Nat) (a : Nat) :
    cnt a (List.replicate k l).flatten = k * cnt a l := by
  induction k with
  | zero => simp [cnt]
  | succ n ih =>
    rw [List.replicate_succ, List.flatten_cons, cnt_append, ih]
    ring

lemma length_flatten_replicate (k : Nat) (l : List Nat) :
    (List.replicate k l).flatten.length = k * l.length := by
  induction k with
  | zero => simp
  | succ n ih =>
    rw [List.replicate_succ, List.flatten_cons, List.length_append, ih]
    ring

lemma cnt_range (n j : Nat) : cnt j (List.range n) = if j < n then 1 else 0 := by
  induction n with
  | zero => simp [cnt]
  | succ m ih =>
    rw [List.range_succ, cnt_append, ih]
    simp only [cnt]
    split_ifs <;> omega

lemma cnt_map_congr_idx (f : Nat → Team) (t : Team) (j0 : Nat) :
    ∀ (lf : List Nat), (∀ j ∈ lf, (f j = t ↔ j = j0)) →
      cnt t (lf.map f) = cnt j0 lf := by
  intro lf
  induction lf with
  | nil => intro _; rfl
  | cons x xs ih =>
    intro hiff
    have hx := hiff x (List.mem_cons_self x xs)
    have hrest : ∀ j ∈ xs, (f j = t ↔ j = j0) :=
      fun j hj => hiff j (List.mem_cons_of_mem _ hj)
    simp only [List.map, cnt, ih hrest]
    by_cases hfx : f x = t
    · rw [if_pos hfx, if_pos (hx.mp hfx)]
    · rw [if_neg hfx, if_neg (fun hc => hfx (hx.mpr hc))]

lemma cnt_map_zero_idx (f : Nat → Team) (t : Team) :
    ∀ (lf : List Nat), (∀ j ∈ lf, ¬ f j = t) → cnt t (lf.map f) = 0 := by
  intro lf
  induction lf with
  | nil => intro _; rfl
  | cons x xs ih =>
    intro hne
    simp only [List.map, cnt]
    rw [if_neg (hne x (List.mem_cons_self x xs)),
      ih (fun j hj => hne j (List.mem_cons_of_mem _ hj))]

lemma pairsLoop_cnt (rand : Nat → Nat) (j : Nat) :
    ∀ (k G : Nat) (players : List Nat) (pairs : List (Nat × Nat)),
      cnt j (flattenPairs (pairsLoop rand k G players pairs)) ≤
        cnt j (flattenPairs pairs) + cnt j players := by
  intro k G players pairs
  induction k, G, players, pairs using pairsLoop.induct rand with
  | case1 k G players pairs hG hp =>
    rw [pairsLoop, if_pos hG, dif_pos hp]
    omega
  | case2 k G players pairs hG hp hp1 =>
    rw [pairsLoop, if_pos hG, dif_neg hp, dif_pos hp1]
    omega
  | case3 k G players pairs hG hp hp1 ih =>
    rw [pairsLoop, if_pos hG, dif_neg hp, dif_neg hp1]
    refine le_trans ih ?_
    rw [flattenPairs_append, cnt_append]
    have hA := swapRemove_cnt players
      ⟨rand k % players.length, Nat.mod_lt _ (Nat.pos_of_ne_zero hp)⟩ j
    have hB := swapRemove_cnt
      (swapRemove players ⟨rand k % players.length, Nat.mod_lt _ (Nat.pos_of_ne_zero hp)⟩).2
      ⟨rand (k + 1) %
        (swapRemove players ⟨rand k % players.length, Nat.mod_lt _ (Nat.pos_of_ne_zero hp)⟩).2.length,
       Nat.mod_lt _ (Nat.pos_of_ne_zero hp1)⟩ j
    simp only [flattenPairs, cnt]
    omega
  | case4 k G players pairs hG =>
    rw [pairsLoop, if_neg hG]
    omega

lemma swapRemove_length {α : Type} (l : List α) (i : Fin l.length) :
    (swapRemove l i).2.length = l.length - 1 := by
  simp [swapRemove]

lemma pairsLoop_length (rand : Nat → Nat) (k G : Nat) (players : List Nat)
    (pairs : List (Nat × Nat)) :
    (pairsLoop rand k G players pairs).length =
      max pairs.length (min G (pairs.length + players.length / 2)) := by
  induction k, G, players, pairs using pairsLoop.induct rand with
  | case1 k G players pairs hG hp =>
    rw [pairsLoop, if_pos hG, dif_pos hp, hp]
    omega
  | case2 k G players pairs hG hp hp1 =>
    rw [pairsLoop, if_pos hG, dif_neg hp, dif_pos hp1]
    have hsw := swapRemove_length players
      ⟨rand k % players.length, Nat.mod_lt _ (Nat.pos_of_ne_zero hp)⟩
    rw [hsw] at hp1
    have hlen : players.length = 1 := by omega
    rw [hlen]
    omega
  | case3 k G players pairs hG hp hp1 ih =>
    rw [pairsLoop, if_pos hG, dif_neg hp, dif_neg hp1]
    rw [ih]
    have hsw1 := swapRemove_length players
      ⟨rand k % players.length, Nat.mod_lt _ (Nat.pos_of_ne_zero hp)⟩
    have hsw2 := swapRemove_length
      (swapRemove players ⟨rand k % players.length, Nat.mod_lt _ (Nat.pos_of_ne_zero hp)⟩).2
      ⟨rand (k + 1) %
        (swapRemove players ⟨rand k % players.length, Nat.mod_lt _ (Nat.pos_of_ne_zero hp)⟩).2.length,
       Nat.mod_lt _ (Nat.pos_of_ne_zero hp1)⟩
    rw [List.length_append]
    simp only [List.length_cons, List.length_nil]
    omega
  | case4 k G players pairs hG =>
    rw [pairsLoop, if_neg hG]
    omega

/-- C3 amended: for every call of the pair generator with N teams and K
games per round (modelled exactly over the naturals, faithful while N*K
stays within the f32-exact range up to 2^24), the number of produced
pairs equals the FLOOR of N*K/2 - when N*K is odd the loop consumes the
last lone ticket and breaks, so one ticket goes unused and one game
fewer than the ceiling target is produced; the multiset of team
occurrences has total size 2*|pairs| and, for a duplicate-free team
list, contains each team at most K times. -/
theorem C3_pairing (rand : Nat → Nat) (match_num : Nat) (teams : List Team)
    (hfit : teams.length * match_num ≤ 2 ^ 24) :
    (create_match_pairs rand match_num teams).length =
      teams.length * match_num / 2 ∧
    (flattenPairs (create_match_pairs rand match_num teams)).length =
      2 * (create_match_pairs rand match_num teams).length ∧
    (teams.Nodup → ∀ t : Team,
      occTeam t (create_match_pairs rand match_num teams) ≤ match_num) := by
  have hplayers_len :
      ((List.replicate match_num (List.range teams.length)).flatten).length =
        match_num * teams.length := by
    rw [length_flatten_replicate, List.length_range]
  refine ⟨?_, flattenPairs_length _, ?_⟩
  · simp only [create_match_pairs]
    rw [List.length_map, pairsLoop_length, hplayers_len]
    simp only [List.length_nil]
    have hc : match_num * teams.length = teams.length * match_num := Nat.mul_comm _ _
    omega
  · intro hnd t
    simp only [create_match_pairs, occTeam]
    rw [flattenPairs_map_team]
    have hbound : ∀ j : Nat,
        cnt j (flattenPairs (pairsLoop rand 0 ((teams.length * match_num + 1) / 2)
          ((List.replicate match_num (List.range teams.length)).flatten) [])) ≤
        match_num * (if j < teams.length then 1 else 0) := by
      intro j
      have h1 := pairsLoop_cnt rand j 0 ((teams.length * match_num + 1) / 2)
        ((List.replicate match_num (List.range teams.length)).flatten) []
      rw [cnt_flatten_replicate, cnt_range] at h1
      simpa [flattenPairs, cnt] using h1
    have hmem_lt : ∀ j ∈ flattenPairs (pairsLoop rand 0 ((teams.length * match_num + 1) / 2)
        ((List.replicate match_num (List.range teams.length)).flatten) []),
        j < teams.length := by
      intro j hj
      by_contra hge
      have hpos := cnt_pos_of_mem hj
      have hb := hbound j
      rw [if_neg hge] at hb
      omega
    by_cases ht : t ∈ teams
    · obtain ⟨n, hn⟩ := List.mem_iff_get.mp ht
      have hiff : ∀ j ∈ flattenPairs (pairsLoop rand 0 ((teams.length * match_num + 1) / 2)
          ((List.replicate match_num (List.range teams.length)).flatten) []),
          ((fun j => (teams.get? j).getD defaultTeam) j = t ↔ j = n.val) := by
        intro j hj
        have hjlt := hmem_lt j hj
        simp only
        rw [List.get?_eq_get hjlt]
        simp only [Option.getD_some]
        constructor
        · intro he
          have hg : teams.get ⟨j, hjlt⟩ = teams.get n := by rw [he, hn]
          have hfin := (List.Nodup.get_inj_iff hnd).mp hg
          rw [Fin.ext_iff] at hfin
          exact hfin
        · rintro rfl
          rw [show (⟨n.val, hjlt⟩ : Fin teams.length) = n from Fin.ext rfl]
          exact hn
      rw [cnt_map_congr_idx _ t n.val _ hiff]
      have hb := hbound n.val
      rw [if_pos n.isLt] at hb
      omega
    · have hne : ∀ j ∈ flattenPairs (pairsLoop rand 0 ((teams.length * match_num + 1) / 2)
          ((List.replicate match_num (List.range teams.length)).flatten) []),
          ¬ (fun j => (teams.get? j).getD defaultTeam) j = t := by
        intro j hj he
        have hjlt := hmem_lt j hj
        simp only at he
        rw [List.get?_eq_get hjlt] at he
        simp only [Option.getD_some] at he
        exact ht (he ▸ List.get_mem teams j hjlt)
      rw [cnt_map_zero_idx _ t _ hne]
      omega

/-- C3 counterexample: three teams at one game per round give a ticket
pool of size 3; the claim predicts ceil(3/2) = 2 pairs, but the loop
draws one pair, consumes the third ticket and breaks, producing exactly
one pair. -/
theorem C3_counterexample :
    (create_match_pairs (fun _ => 0) 1 [teamA, teamB, teamC]).length = 1 ∧
    ¬ (create_match_pairs (fun _ => 0) 1 [teamA, teamB, teamC]).length =
        ([teamA, teamB, teamC].length * 1 + 1) / 2 := by
  have h : (create_match_pairs (fun _ => 0) 1 [teamA, teamB, teamC]).length = 1 := by
    simp only [create_match_pairs]
    rw [List.length_map, pairsLoop_length]
    decide
  exact ⟨h, by rw [h]; decide⟩

/-- C3 witness: the amended pairing theorem applied to a concrete draw
function and the three concrete teams. -/
theorem C3_witness :
    (create_match_pairs (fun _ => 0) 1 [teamA, teamB, teamC]).length = 3 * 1 / 2 ∧
    occTeam teamA (create_match_pairs (fun _ => 0) 1 [teamA, teamB, teamC]) ≤ 1 := by
  have h := C3_pairing (fun _ => 0) 1 [teamA, teamB, teamC] (by norm_num)
  exact ⟨h.1, h.2.2 (by decide) teamA⟩

end Batalja
